import Mathlib

/-!
# allge-care-apis: the HTTP handlers of `src/index.js`

A shallow embedding of the six Express handlers of `src/index.js` and the
properties of the login flow and of the partial configuration update.

The handlers talk to three collaborators: the MySQL pool (`pool.execute`),
`bcrypt.compare` and `jwt.sign`. They are embedded as arbitrary answer
functions over an arbitrary hidden world state, every one of which may also
throw. A handler run threads the world state and records every call together
with its outcome, so that statements such as "no statement is executed" are
statements about the recorded calls.
-/

set_option autoImplicit false

namespace AllgeCare

/-! ## JavaScript values -/

/-- A JavaScript number: `NaN`, an infinity, or the finite value
`(-1)^neg * mant * 2^exp`. No arithmetic is performed on numbers by the
handlers; only zero tests matter. -/
inductive JNum where
  | nan
  | inf (neg : Bool)
  | fin (neg : Bool) (mant : Nat) (exp : Int)
  deriving Repr, DecidableEq

/-- The number literal of a natural number. -/
def JNum.ofNat (n : Nat) : JNum := .fin false n 0

/-- Whether a number is `0` or `-0`. -/
def JNum.isZero : JNum → Bool
  | .fin _ 0 _ => true
  | _ => false

/-- The JavaScript values that occur in request bodies, result rows and
response bodies. An object is its list of own properties. -/
inductive JVal where
  | undefined
  | null
  | bool (b : Bool)
  | num (x : JNum)
  | str (s : String)
  | arr (xs : List JVal)
  | obj (props : List (String × JVal))

/-- An object as a property list; the first entry for a key is its value. -/
abbrev Props := List (String × JVal)

/-- Property read `o[key]` on an object: `undefined` when the key is absent. -/
def Props.get : Props → String → JVal
  | [], _ => .undefined
  | (k, v) :: rest, key => if k = key then v else Props.get rest key

/-- JavaScript truthiness (`ToBoolean`). -/
def JVal.truthy : JVal → Bool
  | .undefined => false
  | .null => false
  | .bool b => b
  | .num .nan => false
  | .num x => !x.isZero
  | .str s => s ≠ ""
  | .arr _ => true
  | .obj _ => true

/-- The test `v !== undefined`. -/
def JVal.isDefined : JVal → Bool
  | .undefined => false
  | _ => true

/-- The operator `a ?? b`. -/
def JVal.nullish (a b : JVal) : JVal :=
  match a with
  | .undefined => b
  | .null => b
  | v => v

/-- The operator `a || b`. -/
def JVal.orElse (a b : JVal) : JVal := if a.truthy then a else b

/-- The test `v === 0`. -/
def JVal.isZero : JVal → Bool
  | .num x => x.isZero
  | _ => false

/-! ## Collaborators -/

/-- A thrown value. -/
abbrev Err := JVal

/-- First component of what `pool.execute` resolves to: the row objects of a
`SELECT`, or the result header of a data-changing statement with its
`affectedRows` count and its remaining fields. -/
inductive QResult where
  | rows (rs : List Props)
  | header (affectedRows : Nat) (rest : Props)

/-- The read `result[0]`. -/
def QResult.first : QResult → JVal
  | .rows (r :: _) => .obj r
  | _ => .undefined

/-- The read `result.affectedRows`. -/
def QResult.affectedRows : QResult → JVal
  | .header n _ => .num (.ofNat n)
  | .rows _ => .undefined

/-- A query result as the value handed to `res.json`. -/
def QResult.toJVal : QResult → JVal
  | .rows rs => .arr (rs.map .obj)
  | .header n rest => .obj (("affectedRows", .num (.ofNat n)) :: rest)

/-- One recorded interaction of a handler with a collaborator. -/
inductive Event where
  | execute (sql : String) (params : Option (List JVal)) (out : Except Err QResult)
  | compare (data hash : JVal) (out : Except Err Bool)
  | sign (payload secret options : JVal) (out : Except Err String)
  | consoleError (args : List JVal)

/-- The collaborators of the handlers over a hidden world state `σ`, and the
process environment. -/
structure Sys (σ : Type) where
  execute : σ → String → Option (List JVal) → Except Err QResult × σ
  compare : σ → JVal → JVal → Except Err Bool × σ
  sign : σ → JVal → JVal → JVal → Except Err String × σ
  env : String → Option String

/-- An environment variable as a JavaScript value. -/
def envVal {σ : Type} (sys : Sys σ) (name : String) : JVal :=
  match sys.env name with
  | some s => .str s
  | none => .undefined

/-- The state of a handler run: the world and the calls made so far. -/
structure Run (σ : Type) where
  world : σ
  trace : List Event

/-- A computation that may throw, over the collaborators. -/
def M (σ α : Type) : Type := Sys σ → Run σ → Except Err α × Run σ

instance {σ : Type} : Monad (M σ) where
  pure a := fun _ s => (.ok a, s)
  bind m f := fun sys s =>
    match m sys s with
    | (.ok a, s') => f a sys s'
    | (.error e, s') => (.error e, s')

/-- The statement `throw e`. -/
def throwErr {σ α : Type} (e : Err) : M σ α := fun _ s => (.error e, s)

/-- The block `try { body } catch (err) { handler }`. -/
def tryCatchM {σ α : Type} (body : M σ α) (handler : Err → M σ α) : M σ α := fun sys s =>
  match body sys s with
  | (.ok a, s') => (.ok a, s')
  | (.error e, s') => handler e sys s'

/-- The collaborators and environment in scope. -/
def getSys {σ : Type} : M σ (Sys σ) := fun sys s => (.ok sys, s)

/-- The call `await pool.execute(sql, params)`, destructured to its first
component. -/
def poolExecute {σ : Type} (sql : String) (params : Option (List JVal)) : M σ QResult :=
  fun sys s =>
    let r := sys.execute s.world sql params
    (r.1, ⟨r.2, s.trace ++ [.execute sql params r.1]⟩)

/-- The call `await bcrypt.compare(data, hash)`. -/
def bcryptCompare {σ : Type} (data hash : JVal) : M σ Bool :=
  fun sys s =>
    let r := sys.compare s.world data hash
    (r.1, ⟨r.2, s.trace ++ [.compare data hash r.1]⟩)

/-- The call `jwt.sign(payload, secret, options)`. -/
def jwtSign {σ : Type} (payload secret options : JVal) : M σ String :=
  fun sys s =>
    let r := sys.sign s.world payload secret options
    (r.1, ⟨r.2, s.trace ++ [.sign payload secret options r.1]⟩)

/-- The call `console.error(...args)`. -/
def consoleError {σ : Type} (args : List JVal) : M σ Unit :=
  fun _ s => (.ok (), ⟨s.world, s.trace ++ [.consoleError args]⟩)

/-- Property read `v.key`: a `TypeError` on `undefined` and `null`. -/
def getProp {σ : Type} (v : JVal) (key : String) : M σ JVal :=
  match v with
  | .obj ps => pure (Props.get ps key)
  | .undefined => throwErr (.obj [("name", .str "TypeError")])
  | .null => throwErr (.obj [("name", .str "TypeError")])
  | _ => pure .undefined

/-! ## Requests and responses -/

/-- The parts of a request the handlers read: the parsed JSON body and the
parsed query string. -/
structure Request where
  body : Props
  query : Props

/-- A response: the status code and the value given to `res.json`. -/
structure Response where
  status : Nat
  body : JVal

/-- The call `res.status(code).json(body)`. -/
def statusJson (code : Nat) (body : JVal) : Response := ⟨code, body⟩

/-- The call `res.json(body)`: the status stays at its default, 200. -/
def json (body : JVal) : Response := ⟨200, body⟩

/-- The body of every catch block's response. -/
def internalError : JVal := .obj [("error", .str "Error interno del servidor")]

/-! ## POST /api/login -/

/-- The lookup statement of the login handler. -/
def loginSql : String := "SELECT id, contrasena FROM usuarios WHERE correo = ? LIMIT 1"

/-- The handler of `POST /api/login`. -/
def login {σ : Type} (req : Request) : M σ Response :=
  tryCatchM (do
    let email := req.body.get "email"
    let password := req.body.get "password"
    if !email.truthy || !password.truthy then
      pure (statusJson 400 (.obj [("error", .str "Faltan email o contraseña")]))
    else do
      let rows ← poolExecute loginSql (some [email])
      let user := rows.first
      if !user.truthy then
        pure (statusJson 401 (.obj [("error", .str "Credenciales incorrectas")]))
      else do
        let passwordOk ← bcryptCompare password (← getProp user "contrasena")
        if !passwordOk then
          pure (statusJson 401 (.obj [("error", .str "Credenciales incorrectas")]))
        else do
          let sys ← getSys
          if !(envVal sys "JWT_SECRET").truthy then do
            consoleError [.str "Falta la variable de entorno JWT_SECRET"]
            pure (statusJson 500 (.obj [("error", .str "Configuración del servidor inválida")]))
          else do
            let token ← jwtSign
              (.obj [("sub", ← getProp user "id"), ("typ", .str "access")])
              (envVal sys "JWT_SECRET")
              (.obj [("algorithm", .str "HS256"), ("expiresIn", .str "15m"),
                     ("issuer", (envVal sys "JWT_ISSUER").orElse (.str ""))])
            pure (json (.obj [("token", .str token)])))
    (fun err => do
      consoleError [.str "Error en /api/login:", err]
      pure (statusJson 500 internalError))

/-- The payload the login handler signs for a user row. -/
def tokenPayload (user : Props) : JVal :=
  .obj [("sub", user.get "id"), ("typ", .str "access")]

/-- The options the login handler signs with. -/
def tokenOptions {σ : Type} (sys : Sys σ) : JVal :=
  .obj [("algorithm", .str "HS256"), ("expiresIn", .str "15m"),
        ("issuer", (envVal sys "JWT_ISSUER").orElse (.str ""))]

/-! ## GET /data/usuario -/

/-- The handler of `GET /data/usuario`. -/
def usuario {σ : Type} (req : Request) : M σ Response :=
  tryCatchM (do
    let email := req.query.get "email"
    let result ←
      if email.truthy then
        poolExecute "SELECT nombre, correo, fecha_creacion, rol FROM usuarios WHERE correo = ?"
          (some [email])
      else
        poolExecute "SELECT nombre, correo, fecha_creacion, rol FROM usuarios" none
    pure (json result.toJVal))
    (fun err => do
      consoleError [.str "Error en /data/usuario:", err]
      pure (statusJson 500 internalError))

/-! ## GET /data/mediciones -/

/-- The statement reading the last measurement. -/
def latestSql : String :=
  "SELECT ph_valor AS ph,\n              temperatura_valor AS temperatura,\n              luz_presente AS luz,\n              hora_registro AS hora\n       FROM mediciones\n       ORDER BY fecha_registro DESC, hora_registro DESC\n       LIMIT 1"

/-- The statement reading the maxima of the last 24 hours. -/
def maxSql : String :=
  "SELECT MAX(ph_valor) AS maxPh,\n              MAX(temperatura_valor) AS maxTemp\n       FROM mediciones\n       WHERE fecha_registro >= DATE_SUB(NOW(), INTERVAL 1 DAY)"

/-- The statement reading the minima of the last 24 hours. -/
def minSql : String :=
  "SELECT MIN(ph_valor) AS minPh,\n              MIN(temperatura_valor) AS minTemp\n       FROM mediciones\n       WHERE fecha_registro >= DATE_SUB(NOW(), INTERVAL 1 DAY)"

/-- The statement reading the measurements of the last `days` days, `days`
being the text of the interval length. -/
def lastDataSql (days : String) : String :=
  "SELECT ph_valor AS ph,\n              temperatura_valor AS temperatura,\n              dia_registro,\n              hora_registro AS hora\n       FROM mediciones\n       WHERE fecha_registro >= DATE_SUB(NOW(), INTERVAL " ++ days ++ " DAY)\n       ORDER BY fecha_registro, hora_registro"

/-- The handler of `GET /data/mediciones`. -/
def mediciones {σ : Type} (_req : Request) : M σ Response :=
  tryCatchM (do
    let latestRows ← poolExecute latestSql none
    let latest := latestRows.first.orElse .null
    let maxRows ← poolExecute maxSql none
    let maxPh ← getProp maxRows.first "maxPh"
    let maxTemp ← getProp maxRows.first "maxTemp"
    let maxLastDay := JVal.obj [("maxPh", maxPh), ("maxTemp", maxTemp)]
    let minRows ← poolExecute minSql none
    let minPh ← getProp minRows.first "minPh"
    let minTemp ← getProp minRows.first "minTemp"
    let minLastDay := JVal.obj [("minPh", minPh), ("minTemp", minTemp)]
    let lastDayData ← poolExecute (lastDataSql "1") none
    let lastWeekData ← poolExecute (lastDataSql "7") none
    let lastMonthData ← poolExecute (lastDataSql "30") none
    pure (json (.obj [("latest", latest), ("maxLastDay", maxLastDay),
      ("lastDayData", lastDayData.toJVal), ("lastWeekData", lastWeekData.toJVal),
      ("lastMonthData", lastMonthData.toJVal), ("minLastDay", minLastDay)])))
    (fun err => do
      consoleError [.str "Error en /data/mediciones:", err]
      pure (statusJson 500 internalError))

/-! ## GET /data/configuraciones -/

/-- The statement reading the configuration table. -/
def configuracionesSql : String :=
  "SELECT ph_min,\n              ph_max,\n              temperatura_min,\n              temperatura_max,\n              agitacion_recomendada AS agitacion,\n              intervalo\n       FROM configuraciones"

/-- The handler of `GET /data/configuraciones`. -/
def getConfiguraciones {σ : Type} (_req : Request) : M σ Response :=
  tryCatchM (do
    let rows ← poolExecute configuracionesSql none
    let config := rows.first.orElse .null
    pure (json config))
    (fun err => do
      consoleError [.str "Error en /data/configuraciones:", err]
      pure (statusJson 500 internalError))

/-! ## GET /data/alertas -/

/-- The statement reading the alerts table. -/
def alertasSql : String :=
  "SELECT fecha_alerta,\n              hora_alerta,\n              comentarios,\n              ph_valor,\n              luz_detectada,\n              temperatura\n       FROM alertas"

/-- The handler of `GET /data/alertas`. -/
def alertas {σ : Type} (_req : Request) : M σ Response :=
  tryCatchM (do
    let rows ← poolExecute alertasSql none
    let config := rows.first.orElse .null
    pure (json config))
    (fun err => do
      consoleError [.str "Error en /data/alertas:", err]
      pure (statusJson 500 internalError))

/-! ## POST /data/configuraciones -/

/-- The allow-list of updatable columns. -/
def allowed : List String :=
  ["ph_min", "ph_max", "temperatura_min", "temperatura_max", "agitacion_recomendada",
   "intervalo"]

/-- The method `parts.join(sep)` on an array of strings. -/
def join (sep : String) : List String → String
  | [] => ""
  | [x] => x
  | x :: y :: rest => x ++ sep ++ join sep (y :: rest)

/-- One turn of the loop over the allow-list: the key's clause and value are
pushed when the body's value for it is not `undefined`. -/
def pushKey (body : Props) (acc : List String × List JVal) (key : String) :
    List String × List JVal :=
  if (body.get key).isDefined then (acc.1 ++ [key ++ " = ?"], acc.2 ++ [body.get key])
  else acc

/-- The loop `for (const key of allowed)`: the arrays `setClauses` and
`values` it leaves. -/
def collect (body : Props) : List String × List JVal :=
  allowed.foldl (pushKey body) ([], [])

/-- The text of the update statement for the given clauses. -/
def updateSql (setClauses : List String) : String :=
  "UPDATE configuraciones\n       SET " ++ join ", " setClauses ++ "\n       WHERE id = ?"

/-- The statement re-reading the updated row. -/
def rereadSql : String :=
  "SELECT ph_min, ph_max, temperatura_min, temperatura_max,\n              agitacion_recomendada AS agitacion, intervalo\n       FROM configuraciones WHERE id = ?"

/-- The target row: `req.body.id ?? 1`. -/
def targetId (body : Props) : JVal := (body.get "id").nullish (.num (.ofNat 1))

/-- The handler of `POST /data/configuraciones`. -/
def postConfiguraciones {σ : Type} (req : Request) : M σ Response :=
  tryCatchM (do
    let setClauses := (collect req.body).1
    let values := (collect req.body).2
    if setClauses.length = 0 then
      pure (statusJson 400 (.obj [("error", .str "No se enviaron campos a actualizar")]))
    else do
      let id := targetId req.body
      let values := values ++ [id]
      let result ← poolExecute (updateSql setClauses) (some values)
      if result.affectedRows.isZero then
        pure (statusJson 404 (.obj [("error", .str "Configuración no encontrada")]))
      else do
        let rows ← poolExecute rereadSql (some [id])
        pure (json (.obj [("ok", .bool true), ("data", rows.first)])))
    (fun err => do
      consoleError [.str "Error en POST /data/configuraciones:", err]
      pure (statusJson 500 internalError))

/-! ## Routing -/

/-- The routes registered on the application. -/
inductive Route where
  | postLogin
  | getUsuario
  | getMediciones
  | getConfiguraciones
  | getAlertas
  | postConfiguraciones

/-- The handler registered for a route. -/
def handler {σ : Type} : Route → Request → M σ Response
  | .postLogin => login
  | .getUsuario => usuario
  | .getMediciones => mediciones
  | .getConfiguraciones => getConfiguraciones
  | .getAlertas => alertas
  | .postConfiguraciones => postConfiguraciones

/-! ## Running a handler -/

/-- The run of a handler from a fresh trace. -/
def serve {σ : Type} (h : M σ Response) (sys : Sys σ) (w : σ) : Except Err Response × Run σ :=
  h sys ⟨w, []⟩

/-- Whether a recorded call ended by throwing. -/
def Event.threw : Event → Bool
  | .execute _ _ (.error _) => true
  | .compare _ _ (.error _) => true
  | .sign _ _ _ (.error _) => true
  | _ => false

/-- The number of `?` placeholders in a statement. -/
def placeholders (sql : String) : Nat := sql.data.count '?'

/-- The allow-listed keys a body supplies, in allow-list order. -/
def supplied (body : Props) : List String :=
  allowed.filter (fun key => (body.get key).isDefined)

/-! ## Sample collaborators and requests -/

/-- A scripted system: the n-th call to the store answers with the n-th entry
of `answers` (an error once the script is exhausted), `bcrypt.compare` and
`jwt.sign` answer with fixed values, and the world counts the calls made. -/
def scripted (answers : List (Except Err QResult)) (cmp : Except Err Bool)
    (signed : Except Err String) (env : String → Option String) : Sys Nat where
  execute := fun w _ _ => (answers.getD w (.error .null), w + 1)
  compare := fun w _ _ => (cmp, w + 1)
  sign := fun w _ _ _ => (signed, w + 1)
  env := env

/-- An environment with a signing secret and no issuer. -/
def envSecret : String → Option String := fun name =>
  if name = "JWT_SECRET" then some "s3cret" else none

/-- An environment with no variable set. -/
def envEmpty : String → Option String := fun _ => none

/-- A stored user row. -/
def rowAna : Props := [("id", .num (.ofNat 7)), ("contrasena", .str "$2b$10$hash")]

/-- A login request with both fields. -/
def reqLogin : Request :=
  ⟨[("email", .str "ana@example.com"), ("password", .str "secreta")], []⟩

/-- An update request with keys out of allow-list order, an unknown key and a
null value: `{intervalo: null, foo: "bar", ph_min: 6.5, id: 0}`. -/
def reqUpdate : Request :=
  ⟨[("intervalo", .null), ("foo", .str "bar"), ("ph_min", .num (.fin false 13 (-1))),
    ("id", .num (.ofNat 0))], []⟩

/-- A configuration row as re-read after an update. -/
def rowConfig : Props := [("ph_min", .num (.fin false 13 (-1))), ("intervalo", .null)]

/-- Two alert rows. -/
def rowAlerta1 : Props := [("comentarios", .str "pH alto"), ("ph_valor", .num (.ofNat 9))]

/-- A second alert row. -/
def rowAlerta2 : Props := [("comentarios", .str "pH bajo"), ("ph_valor", .num (.ofNat 4))]

/-- A request with no body fields and no query. -/
def reqEmpty : Request := ⟨[], []⟩

/-! ## Stepping lemmas -/

section Lemmas

variable {σ α β : Type}

theorem pure_run (a : α) (sys : Sys σ) (s : Run σ) :
    (pure a : M σ α) sys s = (.ok a, s) := rfl

theorem bind_run (m : M σ α) (f : α → M σ β) (sys : Sys σ) (s : Run σ) :
    (m >>= f) sys s =
      match m sys s with
      | (.ok a, s') => f a sys s'
      | (.error e, s') => (.error e, s') := rfl

theorem foldl_pushKey (body : Props) (keys : List String) (acc : List String × List JVal) :
    keys.foldl (pushKey body) acc =
      (acc.1 ++ (keys.filter (fun key => (body.get key).isDefined)).map (fun key => key ++ " = ?"),
       acc.2 ++ (keys.filter (fun key => (body.get key).isDefined)).map (Props.get body)) := by
  induction keys generalizing acc with
  | nil => simp
  | cons k ks ih =>
    rw [List.foldl_cons, ih]
    by_cases hk : (body.get k).isDefined = true
    · simp [pushKey, hk]
    · simp [pushKey, hk]

theorem collect_eq (body : Props) :
    collect body =
      ((supplied body).map (fun key => key ++ " = ?"), (supplied body).map (Props.get body)) := by
  simp [collect, supplied, foldl_pushKey]

theorem placeholders_append (a b : String) :
    placeholders (a ++ b) = placeholders a + placeholders b := by
  simp [placeholders, String.data_append, List.count_append]

theorem placeholders_allowed (key : String) (h : key ∈ allowed) : placeholders key = 0 := by
  simp only [allowed, List.mem_cons, List.mem_singleton, List.not_mem_nil, or_false] at h
  rcases h with h | h | h | h | h | h <;> subst h <;> decide

theorem placeholders_join (keys : List String) (h : ∀ key ∈ keys, placeholders key = 0) :
    placeholders (join ", " (keys.map (fun key => key ++ " = ?"))) = keys.length := by
  induction keys with
  | nil => decide
  | cons k ks ih =>
    cases ks with
    | nil =>
      have h0 := h k (by simp)
      have h1 : placeholders " = ?" = 1 := by decide
      simp [join, placeholders_append, h0, h1]
    | cons k2 ks2 =>
      have h0 := h k (by simp)
      have h1 : placeholders " = ?" = 1 := by decide
      have h2 : placeholders ", " = 0 := by decide
      have ih2 := ih (fun key hkey => h key (List.mem_cons_of_mem _ hkey))
      simp only [List.map_cons, join, placeholders_append, h0, h1, h2] at ih2 ⊢
      simp only [List.length_cons] at ih2 ⊢
      omega

theorem supplied_subset (body : Props) (key : String) (h : key ∈ supplied body) :
    key ∈ allowed := by
  simp only [supplied, List.mem_filter] at h
  exact h.1

theorem placeholders_updateSql (body : Props) :
    placeholders (updateSql ((supplied body).map (fun key => key ++ " = ?")))
      = (supplied body).length + 1 := by
  have h1 : placeholders "UPDATE configuraciones\n       SET " = 0 := by decide
  have h2 : placeholders "\n       WHERE id = ?" = 1 := by decide
  have h3 := placeholders_join (supplied body)
    (fun key hkey => placeholders_allowed key (supplied_subset body key hkey))
  simp only [updateSql, placeholders_append, h1, h2, h3]
  omega

theorem post_run_none (req : Request) (sys : Sys σ) (w : σ) (h : supplied req.body = []) :
    serve (postConfiguraciones req) sys w =
      (.ok (statusJson 400 (.obj [("error", .str "No se enviaron campos a actualizar")])),
        ⟨w, []⟩) := by
  simp [serve, postConfiguraciones, tryCatchM, collect_eq, h, pure_run]

theorem post_run_some (req : Request) (sys : Sys σ) (w : σ) (h : supplied req.body ≠ []) :
    serve (postConfiguraciones req) sys w =
      (let sql := updateSql ((supplied req.body).map (fun key => key ++ " = ?"))
       let params := some ((supplied req.body).map (Props.get req.body) ++ [targetId req.body])
       let u := sys.execute w sql params
       match u.1 with
       | .error e =>
         (.ok (statusJson 500 internalError),
          ⟨u.2, [.execute sql params u.1,
                 .consoleError [.str "Error en POST /data/configuraciones:", e]]⟩)
       | .ok result =>
         if result.affectedRows.isZero then
           (.ok (statusJson 404 (.obj [("error", .str "Configuración no encontrada")])),
            ⟨u.2, [.execute sql params u.1]⟩)
         else
           let r := sys.execute u.2 rereadSql (some [targetId req.body])
           match r.1 with
           | .error e =>
             (.ok (statusJson 500 internalError),
              ⟨r.2, [.execute sql params u.1,
                     .execute rereadSql (some [targetId req.body]) r.1,
                     .consoleError [.str "Error en POST /data/configuraciones:", e]]⟩)
           | .ok rows =>
             (.ok (json (.obj [("ok", .bool true), ("data", rows.first)])),
              ⟨r.2, [.execute sql params u.1,
                     .execute rereadSql (some [targetId req.body]) r.1]⟩)) := by
  simp only [serve, postConfiguraciones, tryCatchM, collect_eq, bind_run, pure_run, poolExecute,
    consoleError, List.length_map, List.length_eq_zero, h, if_false, List.nil_append]
  rcases hu : sys.execute w (updateSql ((supplied req.body).map (fun key => key ++ " = ?")))
    (some ((supplied req.body).map (Props.get req.body) ++ [targetId req.body])) with ⟨(e | result), w1⟩
  · simp
  · by_cases hz : result.affectedRows.isZero = true
    · simp [hz]
    · rcases hr : sys.execute w1 rereadSql (some [targetId req.body]) with ⟨(e | rows), w2⟩
      · simp [hz, hr, bind_run, pure_run, poolExecute]
      · simp [hz, hr, bind_run, pure_run, poolExecute]

theorem truthy_obj (props : Props) : (JVal.obj props).truthy = true := rfl

theorem truthy_undefined : JVal.undefined.truthy = false := rfl

theorem login_run_missing (req : Request) (sys : Sys σ) (w : σ)
    (h : (req.body.get "email").truthy = false ∨ (req.body.get "password").truthy = false) :
    serve (login req) sys w =
      (.ok (statusJson 400 (.obj [("error", .str "Faltan email o contraseña")])), ⟨w, []⟩) := by
  unfold serve login tryCatchM
  rcases h with h | h <;> simp [h, pure_run]

theorem login_run (req : Request) (sys : Sys σ) (w : σ)
    (he : (req.body.get "email").truthy = true) (hp : (req.body.get "password").truthy = true) :
    serve (login req) sys w =
      (let email := req.body.get "email"
       let password := req.body.get "password"
       let ev1 := Event.execute loginSql (some [email])
       let q := sys.execute w loginSql (some [email])
       match q.1 with
       | .error e =>
         (.ok (statusJson 500 internalError),
          ⟨q.2, [ev1 q.1, .consoleError [.str "Error en /api/login:", e]]⟩)
       | .ok (.rows (user :: _)) =>
         let ev2 := Event.compare password (user.get "contrasena")
         let c := sys.compare q.2 password (user.get "contrasena")
         match c.1 with
         | .error e =>
           (.ok (statusJson 500 internalError),
            ⟨c.2, [ev1 q.1, ev2 c.1, .consoleError [.str "Error en /api/login:", e]]⟩)
         | .ok false =>
           (.ok (statusJson 401 (.obj [("error", .str "Credenciales incorrectas")])),
            ⟨c.2, [ev1 q.1, ev2 c.1]⟩)
         | .ok true =>
           if (envVal sys "JWT_SECRET").truthy then
             let ev3 := Event.sign (tokenPayload user) (envVal sys "JWT_SECRET") (tokenOptions sys)
             let t := sys.sign c.2 (tokenPayload user) (envVal sys "JWT_SECRET") (tokenOptions sys)
             match t.1 with
             | .error e =>
               (.ok (statusJson 500 internalError),
                ⟨t.2, [ev1 q.1, ev2 c.1, ev3 t.1,
                       .consoleError [.str "Error en /api/login:", e]]⟩)
             | .ok token =>
               (.ok (json (.obj [("token", .str token)])), ⟨t.2, [ev1 q.1, ev2 c.1, ev3 t.1]⟩)
           else
             (.ok (statusJson 500 (.obj [("error", .str "Configuración del servidor inválida")])),
              ⟨c.2, [ev1 q.1, ev2 c.1,
                     .consoleError [.str "Falta la variable de entorno JWT_SECRET"]]⟩)
       | .ok _ =>
         (.ok (statusJson 401 (.obj [("error", .str "Credenciales incorrectas")])),
          ⟨q.2, [ev1 q.1]⟩)) := by
  simp only [serve, login, tryCatchM, bind_run, pure_run, poolExecute, consoleError, he, hp,
    Bool.not_true, Bool.or_self, Bool.false_eq_true, if_false, List.nil_append]
  rcases hq : sys.execute w loginSql (some [req.body.get "email"]) with ⟨(e | rows), w1⟩
  · simp
  · rcases rows with (_ | ⟨user, rest⟩) | ⟨n, rest⟩
    · simp [QResult.first, truthy_undefined, pure_run]
    · simp only [QResult.first, truthy_obj, getProp, bind_run, pure_run, bcryptCompare,
        Bool.not_true, Bool.false_eq_true, if_false]
      rcases hc : sys.compare w1 (req.body.get "password") (Props.get user "contrasena")
        with ⟨(e | ok), w2⟩
      · simp
      · cases ok
        · simp [pure_run]
        · by_cases hs : (envVal sys "JWT_SECRET").truthy = true
          · rcases ht : sys.sign w2 (tokenPayload user) (envVal sys "JWT_SECRET") (tokenOptions sys)
              with ⟨(e | token), w3⟩
            · simp only [tokenPayload, tokenOptions] at ht
              simp [hs, getSys, bind_run, pure_run, jwtSign, tokenPayload, tokenOptions, ht]
            · simp only [tokenPayload, tokenOptions] at ht
              simp [hs, getSys, bind_run, pure_run, jwtSign, tokenPayload, tokenOptions, ht]
          · simp [hs, getSys, bind_run, pure_run, consoleError]
    · simp [QResult.first, truthy_undefined, pure_run]

theorem usuario_threw (req : Request) (sys : Sys σ) (w : σ)
    (h : ∃ ev ∈ (serve (usuario req) sys w).2.trace, ev.threw = true) :
    (serve (usuario req) sys w).1 = .ok (statusJson 500 internalError) := by
  revert h
  simp only [serve, usuario, tryCatchM, bind_run, pure_run, poolExecute, consoleError]
  by_cases he : (req.query.get "email").truthy = true
  · rcases hq : sys.execute w "SELECT nombre, correo, fecha_creacion, rol FROM usuarios WHERE correo = ?"
      (some [req.query.get "email"]) with ⟨(e | rows), w1⟩
    · simp [he, hq, bind_run, pure_run, poolExecute]
    · simp [he, hq, bind_run, pure_run, poolExecute, Event.threw]
  · rcases hq : sys.execute w "SELECT nombre, correo, fecha_creacion, rol FROM usuarios" none
      with ⟨(e | rows), w1⟩
    · simp [he, hq, bind_run, pure_run, poolExecute]
    · simp [he, hq, bind_run, pure_run, poolExecute, Event.threw]

theorem getConfiguraciones_threw (req : Request) (sys : Sys σ) (w : σ)
    (h : ∃ ev ∈ (serve (getConfiguraciones req) sys w).2.trace, ev.threw = true) :
    (serve (getConfiguraciones req) sys w).1 = .ok (statusJson 500 internalError) := by
  revert h
  simp only [serve, getConfiguraciones, tryCatchM, bind_run, pure_run, poolExecute, consoleError]
  rcases hq : sys.execute w configuracionesSql none with ⟨(e | rows), w1⟩
  · simp
  · simp [Event.threw]

theorem alertas_threw (req : Request) (sys : Sys σ) (w : σ)
    (h : ∃ ev ∈ (serve (alertas req) sys w).2.trace, ev.threw = true) :
    (serve (alertas req) sys w).1 = .ok (statusJson 500 internalError) := by
  revert h
  simp only [serve, alertas, tryCatchM, bind_run, pure_run, poolExecute, consoleError]
  rcases hq : sys.execute w alertasSql none with ⟨(e | rows), w1⟩
  · simp
  · simp [Event.threw]

theorem getProp_first_run (q : QResult) (key : String) (sys : Sys σ) (s : Run σ) :
    (getProp q.first key : M σ JVal) sys s =
      match q with
      | .rows (r :: _) => (.ok (r.get key), s)
      | _ => (.error (.obj [("name", .str "TypeError")]), s) := by
  rcases q with (_ | ⟨r, rest⟩) | ⟨n, rest⟩ <;> rfl

theorem mediciones_threw (req : Request) (sys : Sys σ) (w : σ)
    (h : ∃ ev ∈ (serve (mediciones req) sys w).2.trace, ev.threw = true) :
    (serve (mediciones req) sys w).1 = .ok (statusJson 500 internalError) := by
  revert h
  simp only [serve, mediciones, tryCatchM, bind_run, pure_run, poolExecute, consoleError,
    getProp_first_run]
  rcases h1 : sys.execute w latestSql none with ⟨(e | latestRows), w1⟩
  · simp
  rcases h2 : sys.execute w1 maxSql none with ⟨(e | maxRows), w2⟩
  · simp [h2]
  rcases maxRows with (_ | ⟨maxRow, rest⟩) | ⟨n, rest⟩
  · simp [h2]
  swap
  · simp [h2]
  rcases h3 : sys.execute w2 minSql none with ⟨(e | minRows), w3⟩
  · simp [h2, h3]
  rcases minRows with (_ | ⟨minRow, rest⟩) | ⟨n, rest⟩
  · simp [h2, h3]
  swap
  · simp [h2, h3]
  rcases h4 : sys.execute w3 (lastDataSql "1") none with ⟨(e | lastDayData), w4⟩
  · simp [h2, h3, h4]
  rcases h5 : sys.execute w4 (lastDataSql "7") none with ⟨(e | lastWeekData), w5⟩
  · simp [h2, h3, h4, h5]
  rcases h6 : sys.execute w5 (lastDataSql "30") none with ⟨(e | lastMonthData), w6⟩
  · simp [h2, h3, h4, h5, h6]
  · simp [h2, h3, h4, h5, h6, Event.threw]

theorem login_threw (req : Request) (sys : Sys σ) (w : σ)
    (h : ∃ ev ∈ (serve (login req) sys w).2.trace, ev.threw = true) :
    (serve (login req) sys w).1 = .ok (statusJson 500 internalError) := by
  revert h
  by_cases he : (req.body.get "email").truthy = true
  swap
  · simp [login_run_missing req sys w (Or.inl (by simpa using he))]
  by_cases hp : (req.body.get "password").truthy = true
  swap
  · simp [login_run_missing req sys w (Or.inr (by simpa using hp))]
  rw [login_run req sys w he hp]
  dsimp only
  rcases hq : sys.execute w loginSql (some [req.body.get "email"]) with ⟨(e | rows), w1⟩
  · simp
  rcases rows with (_ | ⟨user, rest⟩) | ⟨n, rest⟩
  · simp [Event.threw]
  swap
  · simp [Event.threw]
  rcases hc : sys.compare w1 (req.body.get "password") (Props.get user "contrasena")
    with ⟨(e | ok), w2⟩
  · simp [hc]
  cases ok
  · simp [hc, Event.threw]
  by_cases hs : (envVal sys "JWT_SECRET").truthy = true
  swap
  · simp [hc, hs, Event.threw]
  rcases ht : sys.sign w2 (tokenPayload user) (envVal sys "JWT_SECRET") (tokenOptions sys)
    with ⟨(e | token), w3⟩
  · simp [hc, hs, ht]
  · simp [hc, hs, ht, Event.threw]

theorem postConfiguraciones_threw (req : Request) (sys : Sys σ) (w : σ)
    (h : ∃ ev ∈ (serve (postConfiguraciones req) sys w).2.trace, ev.threw = true) :
    (serve (postConfiguraciones req) sys w).1 = .ok (statusJson 500 internalError) := by
  revert h
  by_cases hs : supplied req.body = []
  · simp [post_run_none req sys w hs]
  rw [post_run_some req sys w hs]
  dsimp only
  rcases hu : sys.execute w (updateSql ((supplied req.body).map (fun key => key ++ " = ?")))
    (some ((supplied req.body).map (Props.get req.body) ++ [targetId req.body]))
    with ⟨(e | result), w1⟩
  · simp
  by_cases hz : result.affectedRows.isZero = true
  · simp [hz, Event.threw]
  rcases hr : sys.execute w1 rereadSql (some [targetId req.body]) with ⟨(e | rows), w2⟩
  · simp [hz, hr]
  · simp [hz, hr, Event.threw]

theorem truthy_secret (sys : Sys σ) (secret : String) (hs : sys.env "JWT_SECRET" = some secret)
    (hne : secret ≠ "") : (envVal sys "JWT_SECRET").truthy = true := by
  simp [envVal, hs, JVal.truthy, hne]

theorem falsy_secret (sys : Sys σ)
    (hs : sys.env "JWT_SECRET" = none ∨ sys.env "JWT_SECRET" = some "") :
    (envVal sys "JWT_SECRET").truthy = false := by
  rcases hs with hs | hs <;> simp [envVal, hs, JVal.truthy]

theorem issuer_eq (sys : Sys σ) :
    (envVal sys "JWT_ISSUER").orElse (.str "") = .str ((sys.env "JWT_ISSUER").getD "") := by
  cases hi : sys.env "JWT_ISSUER" with
  | none => simp [envVal, hi, JVal.orElse, JVal.truthy]
  | some s =>
    by_cases hs : s = ""
    · simp [envVal, hi, JVal.orElse, JVal.truthy, hs]
    · simp [envVal, hi, JVal.orElse, JVal.truthy, hs]

end Lemmas

/-! ## The claims -/

section Claims

variable {σ : Type}

/-- C1: when the body supplies some allow-listed field, the first call of the
handler is the UPDATE whose SET clauses are `key = ?` for exactly the allow-list
keys the body supplies, once each and in allow-list order (whatever the order
of the body, of which only the key lookups matter), whose bound parameters are
the body's values for those keys in the same order followed by the target id
(1 when the body has no id, the body's id when it has a non-null one), and
whose number of `?` placeholders equals the number of parameters; no later call
is another UPDATE. -/
theorem postConfiguraciones_update_statement (req : Request) (sys : Sys σ) (w : σ)
    (key : String) (hkey : key ∈ allowed) (hval : req.body.get key ≠ .undefined) :
    (∃ out rest,
      (serve (postConfiguraciones req) sys w).2.trace =
        .execute (updateSql ((supplied req.body).map (fun k => k ++ " = ?")))
          (some ((supplied req.body).map (Props.get req.body) ++ [targetId req.body])) out
          :: rest
      ∧ ∀ ev ∈ rest, ∀ sql params o, ev = .execute sql params o → sql = rereadSql)
    ∧ (∀ k, k ∈ supplied req.body ↔ k ∈ allowed ∧ req.body.get k ≠ .undefined)
    ∧ (supplied req.body).Sublist allowed
    ∧ (supplied req.body).Nodup
    ∧ (∀ body : Props, (∀ k ∈ allowed, body.get k = req.body.get k) →
        supplied body = supplied req.body ∧
        (supplied body).map (Props.get body) = (supplied req.body).map (Props.get req.body))
    ∧ placeholders (updateSql ((supplied req.body).map (fun k => k ++ " = ?"))) =
        ((supplied req.body).map (Props.get req.body) ++ [targetId req.body]).length
    ∧ (req.body.get "id" = .undefined → targetId req.body = .num (.ofNat 1))
    ∧ (req.body.get "id" ≠ .undefined → req.body.get "id" ≠ .null →
        targetId req.body = req.body.get "id") := by
  have hmem : ∀ (body : Props) (k : String),
      k ∈ supplied body ↔ k ∈ allowed ∧ body.get k ≠ .undefined := by
    intro body k
    simp only [supplied, List.mem_filter]
    constructor
    · rintro ⟨h1, h2⟩
      refine ⟨h1, fun h => ?_⟩
      rw [h] at h2
      exact absurd h2 (by decide)
    · rintro ⟨h1, h2⟩
      refine ⟨h1, ?_⟩
      cases hv : body.get k <;> first | rfl | exact absurd hv h2
  have hs : supplied req.body ≠ [] := by
    intro h
    have := (hmem req.body key).2 ⟨hkey, hval⟩
    rw [h] at this
    exact absurd this (List.not_mem_nil _)
  refine ⟨?_, hmem req.body, ?_, ?_, ?_, ?_, ?_, ?_⟩
  · rw [post_run_some req sys w hs]
    dsimp only
    rcases hu : sys.execute w (updateSql ((supplied req.body).map (fun key => key ++ " = ?")))
      (some ((supplied req.body).map (Props.get req.body) ++ [targetId req.body]))
      with ⟨(e | result), w1⟩
    · exact ⟨.error e, [.consoleError [.str "Error en POST /data/configuraciones:", e]],
        rfl, by simp⟩
    · by_cases hz : result.affectedRows.isZero = true
      · exact ⟨.ok result, [], by simp [hz], by simp⟩
      · rcases hr : sys.execute w1 rereadSql (some [targetId req.body]) with ⟨(e | rows), w2⟩
        · exact ⟨.ok result, [.execute rereadSql (some [targetId req.body]) (.error e),
            .consoleError [.str "Error en POST /data/configuraciones:", e]],
            by simp [hz, hr], by simp⟩
        · exact ⟨.ok result, [.execute rereadSql (some [targetId req.body]) (.ok rows)],
            by simp [hz, hr], by simp⟩
  · exact List.filter_sublist _
  · exact List.Nodup.filter _ (by decide)
  · intro body hb
    have h1 : supplied body = supplied req.body := by
      simp only [supplied]
      apply List.filter_congr
      intro k hk
      rw [hb k hk]
    refine ⟨h1, ?_⟩
    rw [h1]
    apply List.map_congr_left
    intro k hk
    exact hb k ((hmem req.body k).1 hk).1
  · rw [placeholders_updateSql]
    simp
  · intro h
    simp [targetId, h, JVal.nullish]
  · intro h1 h2
    simp only [targetId]
    cases hv : req.body.get "id" <;> first | rfl | exact absurd hv h1 | exact absurd hv h2

theorem postConfiguraciones_update_statement_witness :
    ("ph_min" ∈ allowed ∧ reqUpdate.body.get "ph_min" ≠ .undefined) ∧
    (∃ out rest,
      (serve (postConfiguraciones reqUpdate)
          (scripted [.ok (.header 1 []), .ok (.rows [rowConfig])] (.ok true) (.ok "t") envEmpty)
          0).2.trace =
        .execute (updateSql ((supplied reqUpdate.body).map (fun k => k ++ " = ?")))
          (some ((supplied reqUpdate.body).map (Props.get reqUpdate.body) ++
            [targetId reqUpdate.body])) out :: rest
      ∧ ∀ ev ∈ rest, ∀ sql params o, ev = .execute sql params o → sql = rereadSql) ∧
    supplied reqUpdate.body = ["ph_min", "intervalo"] ∧
    updateSql ((supplied reqUpdate.body).map (fun k => k ++ " = ?")) =
      "UPDATE configuraciones\n       SET ph_min = ?, intervalo = ?\n       WHERE id = ?" :=
  have hval : reqUpdate.body.get "ph_min" ≠ .undefined := by
    intro h
    cases h
  ⟨⟨by decide, hval⟩,
   (postConfiguraciones_update_statement reqUpdate
      (scripted [.ok (.header 1 []), .ok (.rows [rowConfig])] (.ok true) (.ok "t") envEmpty)
      0 "ph_min" (by decide) hval).1,
   by decide, by decide⟩

/-- C2: for a login request with non-empty email and password, the response
when the lookup finds no user is 401 with the body
`{error: 'Credenciales incorrectas'}`, and the response when the lookup finds
a user whose password verification returns false is the same response. -/
theorem login_unknown_email_same_as_wrong_password {σ₁ σ₂ : Type} (req : Request)
    (sys₁ : Sys σ₁) (w₁ v₁ : σ₁) (sys₂ : Sys σ₂) (w₂ v₂ u₂ : σ₂) (user : Props)
    (rest : List Props)
    (he : (req.body.get "email").truthy = true) (hp : (req.body.get "password").truthy = true)
    (h1 : sys₁.execute w₁ loginSql (some [req.body.get "email"]) = (.ok (.rows []), v₁))
    (h2 : sys₂.execute w₂ loginSql (some [req.body.get "email"]) =
      (.ok (.rows (user :: rest)), v₂))
    (hc : sys₂.compare v₂ (req.body.get "password") (user.get "contrasena") = (.ok false, u₂)) :
    (serve (login req) sys₁ w₁).1 = .ok ⟨401, .obj [("error", .str "Credenciales incorrectas")]⟩
    ∧ (serve (login req) sys₂ w₂).1 = (serve (login req) sys₁ w₁).1 := by
  rw [login_run req sys₁ w₁ he hp, login_run req sys₂ w₂ he hp]
  simp [h1, h2, hc, statusJson]

theorem login_unknown_email_same_as_wrong_password_witness :
    ((reqLogin.body.get "email").truthy = true ∧ (reqLogin.body.get "password").truthy = true ∧
      (scripted [.ok (.rows [])] (.ok true) (.ok "t") envSecret).execute 0 loginSql
        (some [reqLogin.body.get "email"]) = (.ok (.rows []), 1) ∧
      (scripted [.ok (.rows [rowAna])] (.ok false) (.ok "t") envSecret).execute 0 loginSql
        (some [reqLogin.body.get "email"]) = (.ok (.rows [rowAna]), 1) ∧
      (scripted [.ok (.rows [rowAna])] (.ok false) (.ok "t") envSecret).compare 1
        (reqLogin.body.get "password") (rowAna.get "contrasena") = (.ok false, 2)) ∧
    ((serve (login reqLogin) (scripted [.ok (.rows [])] (.ok true) (.ok "t") envSecret) 0).1 =
        .ok ⟨401, .obj [("error", .str "Credenciales incorrectas")]⟩ ∧
      (serve (login reqLogin)
          (scripted [.ok (.rows [rowAna])] (.ok false) (.ok "t") envSecret) 0).1 =
        (serve (login reqLogin) (scripted [.ok (.rows [])] (.ok true) (.ok "t") envSecret) 0).1) :=
  ⟨⟨rfl, rfl, rfl, rfl, rfl⟩,
   login_unknown_email_same_as_wrong_password reqLogin
     (scripted [.ok (.rows [])] (.ok true) (.ok "t") envSecret) 0 1
     (scripted [.ok (.rows [rowAna])] (.ok false) (.ok "t") envSecret) 0 1 2 rowAna []
     rfl rfl rfl rfl rfl⟩

/-- C3: when the lookup returns a row, password verification returns true, a
non-empty signing secret is configured and signing returns a token, the
response is 200 with the single field `token`, the token being what
`jwt.sign` returned for the payload `sub` = the row's id, `typ` = 'access',
the configured secret, and the options algorithm HS256, expiry '15m' and
issuer = the configured issuer, or the empty string when none is configured. -/
theorem login_success (req : Request) (sys : Sys σ) (w w1 w2 w3 : σ) (user : Props)
    (rest : List Props) (secret token : String)
    (he : (req.body.get "email").truthy = true) (hp : (req.body.get "password").truthy = true)
    (hq : sys.execute w loginSql (some [req.body.get "email"]) =
      (.ok (.rows (user :: rest)), w1))
    (hc : sys.compare w1 (req.body.get "password") (user.get "contrasena") = (.ok true, w2))
    (hs : sys.env "JWT_SECRET" = some secret) (hne : secret ≠ "")
    (ht : sys.sign w2 (.obj [("sub", user.get "id"), ("typ", .str "access")]) (.str secret)
      (.obj [("algorithm", .str "HS256"), ("expiresIn", .str "15m"),
             ("issuer", .str ((sys.env "JWT_ISSUER").getD ""))]) = (.ok token, w3)) :
    serve (login req) sys w =
      (.ok ⟨200, .obj [("token", .str token)]⟩,
       ⟨w3, [.execute loginSql (some [req.body.get "email"]) (.ok (.rows (user :: rest))),
             .compare (req.body.get "password") (user.get "contrasena") (.ok true),
             .sign (.obj [("sub", user.get "id"), ("typ", .str "access")]) (.str secret)
               (.obj [("algorithm", .str "HS256"), ("expiresIn", .str "15m"),
                      ("issuer", .str ((sys.env "JWT_ISSUER").getD ""))]) (.ok token)]⟩) := by
  have hsec : envVal sys "JWT_SECRET" = .str secret := by simp [envVal, hs]
  have htr : (JVal.str secret).truthy = true := by
    rw [← hsec]
    exact truthy_secret sys secret hs hne
  rw [login_run req sys w he hp]
  simp only [hq, hc, htr, if_true, tokenPayload, tokenOptions, issuer_eq, hsec, ht, json]

theorem login_success_witness :
    ((reqLogin.body.get "email").truthy = true ∧ (reqLogin.body.get "password").truthy = true ∧
      (scripted [.ok (.rows [rowAna])] (.ok true) (.ok "a.b.c") envSecret).execute 0 loginSql
        (some [reqLogin.body.get "email"]) = (.ok (.rows [rowAna]), 1) ∧
      (scripted [.ok (.rows [rowAna])] (.ok true) (.ok "a.b.c") envSecret).compare 1
        (reqLogin.body.get "password") (rowAna.get "contrasena") = (.ok true, 2) ∧
      envSecret "JWT_SECRET" = some "s3cret" ∧ "s3cret" ≠ "" ∧
      (scripted [.ok (.rows [rowAna])] (.ok true) (.ok "a.b.c") envSecret).sign 2
        (.obj [("sub", rowAna.get "id"), ("typ", .str "access")]) (.str "s3cret")
        (.obj [("algorithm", .str "HS256"), ("expiresIn", .str "15m"),
               ("issuer", .str ((envSecret "JWT_ISSUER").getD ""))]) = (.ok "a.b.c", 3)) ∧
    serve (login reqLogin) (scripted [.ok (.rows [rowAna])] (.ok true) (.ok "a.b.c") envSecret) 0 =
      (.ok ⟨200, .obj [("token", .str "a.b.c")]⟩,
       ⟨3, [.execute loginSql (some [reqLogin.body.get "email"]) (.ok (.rows [rowAna])),
            .compare (reqLogin.body.get "password") (rowAna.get "contrasena") (.ok true),
            .sign (.obj [("sub", rowAna.get "id"), ("typ", .str "access")]) (.str "s3cret")
              (.obj [("algorithm", .str "HS256"), ("expiresIn", .str "15m"),
                     ("issuer", .str ((envSecret "JWT_ISSUER").getD ""))]) (.ok "a.b.c")]⟩) :=
  ⟨⟨rfl, rfl, rfl, rfl, rfl, by decide, rfl⟩,
   login_success reqLogin (scripted [.ok (.rows [rowAna])] (.ok true) (.ok "a.b.c") envSecret)
     0 1 2 3 rowAna [] "s3cret" "a.b.c" rfl rfl rfl rfl rfl (by decide) rfl⟩

/-- C6, as stated, fails: with no signing secret configured, a login request
with non-empty email and password for which the lookup finds no user is
answered 401, not with the 500 misconfiguration response. -/
theorem login_secret_absent_counterexample :
    (reqLogin.body.get "email").truthy = true ∧ (reqLogin.body.get "password").truthy = true ∧
    envEmpty "JWT_SECRET" = none ∧
    serve (login reqLogin) (scripted [.ok (.rows [])] (.ok true) (.ok "t") envEmpty) 0 =
      (.ok ⟨401, .obj [("error", .str "Credenciales incorrectas")]⟩,
       ⟨1, [.execute loginSql (some [.str "ana@example.com"]) (.ok (.rows []))]⟩) ∧
    (serve (login reqLogin) (scripted [.ok (.rows [])] (.ok true) (.ok "t") envEmpty) 0).1 ≠
      .ok ⟨500, .obj [("error", .str "Configuración del servidor inválida")]⟩ :=
  ⟨rfl, rfl, rfl, rfl, fun h => by cases h⟩

/-- C6, amended: when the lookup returns a row and password verification
returns true, a login request with non-empty email and password is answered
with the 500 misconfiguration response if the signing secret is unset or
empty; the condition is logged and nothing is signed. -/
theorem login_secret_absent (req : Request) (sys : Sys σ) (w w1 w2 : σ) (user : Props)
    (rest : List Props)
    (he : (req.body.get "email").truthy = true) (hp : (req.body.get "password").truthy = true)
    (hq : sys.execute w loginSql (some [req.body.get "email"]) =
      (.ok (.rows (user :: rest)), w1))
    (hc : sys.compare w1 (req.body.get "password") (user.get "contrasena") = (.ok true, w2))
    (hs : sys.env "JWT_SECRET" = none ∨ sys.env "JWT_SECRET" = some "") :
    serve (login req) sys w =
      (.ok ⟨500, .obj [("error", .str "Configuración del servidor inválida")]⟩,
       ⟨w2, [.execute loginSql (some [req.body.get "email"]) (.ok (.rows (user :: rest))),
             .compare (req.body.get "password") (user.get "contrasena") (.ok true),
             .consoleError [.str "Falta la variable de entorno JWT_SECRET"]]⟩) := by
  rw [login_run req sys w he hp]
  simp [hq, hc, falsy_secret sys hs, statusJson]

theorem login_secret_absent_witness :
    ((reqLogin.body.get "email").truthy = true ∧ (reqLogin.body.get "password").truthy = true ∧
      (scripted [.ok (.rows [rowAna])] (.ok true) (.ok "t") envEmpty).execute 0 loginSql
        (some [reqLogin.body.get "email"]) = (.ok (.rows [rowAna]), 1) ∧
      (scripted [.ok (.rows [rowAna])] (.ok true) (.ok "t") envEmpty).compare 1
        (reqLogin.body.get "password") (rowAna.get "contrasena") = (.ok true, 2) ∧
      (envEmpty "JWT_SECRET" = none ∨ envEmpty "JWT_SECRET" = some "")) ∧
    serve (login reqLogin) (scripted [.ok (.rows [rowAna])] (.ok true) (.ok "t") envEmpty) 0 =
      (.ok ⟨500, .obj [("error", .str "Configuración del servidor inválida")]⟩,
       ⟨2, [.execute loginSql (some [reqLogin.body.get "email"]) (.ok (.rows [rowAna])),
            .compare (reqLogin.body.get "password") (rowAna.get "contrasena") (.ok true),
            .consoleError [.str "Falta la variable de entorno JWT_SECRET"]]⟩) :=
  ⟨⟨rfl, rfl, rfl, rfl, Or.inl rfl⟩,
   login_secret_absent reqLogin (scripted [.ok (.rows [rowAna])] (.ok true) (.ok "t") envEmpty)
     0 1 2 rowAna [] rfl rfl rfl rfl (Or.inl rfl)⟩

/-- C8, on the code: with two alerts stored, `GET /data/alertas` answers 200
with the first row alone as a single object; the second alert is not in the
response, which is not the array of the rows returned by the query. -/
theorem alertas_two_rows_first_only :
    serve (alertas reqEmpty)
        (scripted [.ok (.rows [rowAlerta1, rowAlerta2])] (.ok true) (.ok "t") envEmpty) 0 =
      (.ok ⟨200, .obj rowAlerta1⟩,
       ⟨1, [.execute alertasSql none (.ok (.rows [rowAlerta1, rowAlerta2]))]⟩)
    ∧ JVal.obj rowAlerta1 ≠ (QResult.rows [rowAlerta1, rowAlerta2]).toJVal :=
  ⟨rfl, fun h => by cases h⟩

/-- C9: in every handler, when a call to the store, to password verification or
to token signing throws, the response is 500 with the body
`{error: 'Error interno del servidor'}`, a constant that does not depend on the
thrown value. -/
theorem handler_exception_500 (route : Route) (req : Request) (sys : Sys σ) (w : σ)
    (h : ∃ ev ∈ (serve (handler route req) sys w).2.trace, ev.threw = true) :
    (serve (handler route req) sys w).1 =
      .ok ⟨500, .obj [("error", .str "Error interno del servidor")]⟩ := by
  cases route
  · exact login_threw req sys w h
  · exact usuario_threw req sys w h
  · exact mediciones_threw req sys w h
  · exact getConfiguraciones_threw req sys w h
  · exact alertas_threw req sys w h
  · exact postConfiguraciones_threw req sys w h

theorem handler_exception_500_witness :
    (∃ ev ∈ (serve (handler .getMediciones reqEmpty)
        (scripted [.ok (.rows []), .error (.obj [("message", .str "ECONNRESET")])] (.ok true)
          (.ok "t") envEmpty) 0).2.trace, ev.threw = true) ∧
    (serve (handler .getMediciones reqEmpty)
        (scripted [.ok (.rows []), .error (.obj [("message", .str "ECONNRESET")])] (.ok true)
          (.ok "t") envEmpty) 0).1 =
      .ok ⟨500, .obj [("error", .str "Error interno del servidor")]⟩ :=
  have h : ∃ ev ∈ (serve (handler .getMediciones reqEmpty)
      (scripted [.ok (.rows []), .error (.obj [("message", .str "ECONNRESET")])] (.ok true)
        (.ok "t") envEmpty) 0).2.trace, ev.threw = true :=
    ⟨.execute maxSql none (.error (.obj [("message", .str "ECONNRESET")])),
      List.mem_cons_of_mem _ (List.mem_cons_self _ _), rfl⟩
  ⟨h, handler_exception_500 .getMediciones reqEmpty _ 0 h⟩

end Claims

end AllgeCare